import Mathlib

/-!
A verification development for the TestInsight report-normalization and
failure-clustering core (`src/main.py`).

The Python code is shallowly embedded:
* JSON documents become the inductive type `JSON`; JSON numbers are modeled
  as integers (all counters in the report shapes are integers).
* `JSON.obj` models a Python dict (unique keys; lookup returns the first
  binding).
* Python truthiness, `x or y` chains, `int(x or 0)` coercion and
  `dict.get` are modeled by `pyTruthy`, `pyOrJ`, `coerce0` and `pyGet`.
* Fallible code paths (a `.get` on a non-dict, `int()` of a non-numeric
  value, `.lower()`/`.strip()` of a truthy non-string, iteration of a
  truthy non-list) raise in Python; they are modeled as `Except NormError`
  with the `NormError.typeErr` constructor.  The `KeyError` raised when no
  report shape matches is `NormError.keyErr` carrying the message string.
-/

inductive JSON where
  | null
  | bool (b : Bool)
  | num (n : Int)
  | str (s : String)
  | arr (elems : List JSON)
  | obj (fields : List (String × JSON))
deriving Repr

/-- First binding for a key in an object's field list (Python dicts have
unique keys, so first-binding lookup models `dict.get`). -/
def lookupField : List (String × JSON) → String → Option JSON
  | [], _ => none
  | (k, v) :: rest, key => if k = key then some v else lookupField rest key

/-- Models `j.get(key)` for a `j` that is already known to be a dict; an absent
key yields `None`, modeled as `JSON.null`.  On a non-dict this returns
`null` as well; it is only ever applied to values already matched as
objects (use `pyGet` where the receiver may not be a dict). -/
def JSON.getD (j : JSON) (key : String) : JSON :=
  match j with
  | .obj fs => (lookupField fs key).getD .null
  | _ => .null

/-- Python truthiness of a JSON value. -/
def pyTruthy : JSON → Bool
  | .null => false
  | .bool b => b
  | .num n => n != 0
  | .str s => s != ""
  | .arr l => !l.isEmpty
  | .obj fs => !fs.isEmpty

/-- Python `a or b` on values: `a` if truthy, else `b`. -/
def pyOrJ (a b : JSON) : JSON := if pyTruthy a then a else b

inductive NormError where
  | typeErr
  | keyErr (msg : String)
deriving Repr, DecidableEq

/-- Models `x.get(key)` where `x` may not be a dict: Python raises
`AttributeError` on a non-dict receiver. -/
def pyGet (j : JSON) (key : String) : Except NormError JSON :=
  match j with
  | .obj fs => .ok ((lookupField fs key).getD .null)
  | _ => .error .typeErr

/-- Models `for x in (v or [])`: a falsy `v` iterates nothing; a list
iterates its elements.  Every such loop in the source immediately calls
`.get` on each element, so iterating a truthy non-list (dict keys,
string characters, a non-iterable number) raises in Python; that is the
`typeErr` case. -/
def pyIter (j : JSON) : Except NormError (List JSON) :=
  match j with
  | .arr l => .ok l
  | _ => if pyTruthy j then .error .typeErr else .ok []

/-- Python whitespace stripped by `str.strip()` (ASCII subset; the inputs
of interest are ASCII). -/
def pyWs (c : Char) : Bool :=
  c = ' ' || c = '\t' || c = '\n' || c = '\r' || c = '\x0b' || c = '\x0c'

def pyStrip (s : String) : String :=
  ⟨(s.data.dropWhile pyWs).reverse.dropWhile pyWs |>.reverse⟩

/-- Models `str.lower()` (ASCII case mapping; all report text of interest is
ASCII). -/
def pyLower (s : String) : String := ⟨s.data.map Char.toLower⟩

/-- Python `int(str)`: surrounding whitespace stripped, optional sign,
then a non-empty digit run (numeric-literal underscores are not modeled).
`none` models `ValueError`. -/
def digitsVal (cs : List Char) : Option Nat :=
  if cs.isEmpty then none
  else if cs.all Char.isDigit then
    some (cs.foldl (fun a c => a * 10 + (c.toNat - 48)) 0)
  else none

def parseIntStr (s : String) : Option Int :=
  match (pyStrip s).data with
  | '+' :: rest => (digitsVal rest).map Int.ofNat
  | '-' :: rest => (digitsVal rest).map (fun n => -(n : Int))
  | cs => (digitsVal cs).map Int.ofNat

/-- Python `int(v)` on a JSON value; `none` models `TypeError`/`ValueError`. -/
def pyToInt : JSON → Option Int
  | .num n => some n
  | .bool b => some (if b then 1 else 0)
  | .str s => parseIntStr s
  | _ => none

/-- Models `int(v or 0)`: a falsy value (including an absent key's `None`)
coerces to `0`; a truthy value goes through `int()`. -/
def coerce0 (v : JSON) : Except NormError Int :=
  if pyTruthy v then
    match pyToInt v with
    | some n => .ok n
    | none => .error .typeErr
  else .ok 0

/-- Models `int(v)` with no falsy shortcut (used for the summary shape's
`failed` chain, whose final alternative is already a number). -/
def intE (v : JSON) : Except NormError Int :=
  match pyToInt v with
  | some n => .ok n
  | none => .error .typeErr

def isObjJ : JSON → Bool
  | .obj _ => true
  | _ => false

def isArrJ : JSON → Bool
  | .arr _ => true
  | _ => false

/-- The summary dict returned by `_normalize_results`:
`{"total": ..., "passed": ..., "failed": ...}`. -/
structure Summary where
  total : Int
  passed : Int
  failed : Int
deriving Repr, DecidableEq

/-- A failure dict built by the normalizer's suite walks:
`{"title": spec.get("title"), "file": spec.get("file"), "line": spec.get("line")}`
plus a `"messages"` key that is added only when the collected list is
non-empty; `messages = []` encodes the absent key (the clusterer reads it
back with `f.get("messages", [])`). -/
structure FailureRecord where
  title : JSON
  file : JSON
  line : JSON
  messages : List String
deriving Repr

/-- One element of the failures list returned by `_normalize_results`:
the suite walks build `FailureRecord` dicts; the explicit-summary and
flat-list branches pass through raw values from the document. -/
inductive Failure where
  | record (r : FailureRecord)
  | external (j : JSON)
deriving Repr

/-- Models `(r.get("status") or "").lower()` (used identically at main.py lines
27, 80 and 100): an absent or falsy status reads as `""`; a truthy
non-string status raises in Python. -/
def resultStatusLower (r : JSON) : Except NormError String := do
  let v ← pyGet r "status"
  match pyOrJ v (.str "") with
  | .str s => .ok (pyLower s)
  | _ => .error .typeErr

/-- The failure-message extraction for one result `r`
(main.py lines 28–34 and, verbatim, 101–107):
```
msg = None
if isinstance(r.get("error"), dict):
    msg = r["error"].get("message") or r["error"].get("stack")
if not msg and r.get("errors"):
    msg = r["errors"][0].get("message")
if msg:
    msgs.append(msg.strip())
```
Returns the stripped message when `msg` ends up truthy, `none` when it is
falsy; a truthy non-string `msg`, an index/`.get` on a non-list/non-dict
`errors` value, raise in Python (`typeErr`). -/
def resultMsg (r : JSON) : Except NormError (Option String) := do
  let e ← pyGet r "error"
  let msg :=
    match e with
    | .obj _ => pyOrJ (e.getD "message") (e.getD "stack")
    | _ => .null
  let errs ← pyGet r "errors"
  let msg2 : Except NormError JSON :=
    if !(pyTruthy msg) && pyTruthy errs then
      match errs with
      | .arr (e0 :: _) => (pyGet e0 "message")
      | _ => .error .typeErr
    else .ok msg
  let m ← msg2
  if pyTruthy m then
    match m with
    | .str s => .ok (some (pyStrip s))
    | _ => .error .typeErr
  else .ok none

/-- The inner message-collection loop over a spec's `tests`/`results`,
keeping only results whose lowered status is `"failed"` (main.py lines
24–34 = 97–107). -/
def specFailMsgs (spec : JSON) : Except NormError (List String) := do
  let testsJ ← pyGet spec "tests"
  let tests ← pyIter testsJ
  tests.foldlM (fun acc t => do
    let resultsJ ← pyGet t "results"
    let results ← pyIter resultsJ
    results.foldlM (fun acc2 r => do
      let st ← resultStatusLower r
      if st = "failed" then
        match (← resultMsg r) with
        | some m => pure (acc2 ++ [m])
        | none => pure acc2
      else pure acc2) acc) []

/-- Builds the failure dict for a failing spec (main.py lines 23+24–36 =
96+97–109): title/file/line read in that order, then the messages list. -/
def mkFailRecord (spec : JSON) : Except NormError Failure := do
  let t ← pyGet spec "title"
  let f ← pyGet spec "file"
  let l ← pyGet spec "line"
  let msgs ← specFailMsgs spec
  pure (.record ⟨t, f, l, msgs⟩)

/-- The lowered statuses of all nested results of a spec, in traversal
order (the loop of `spec_ok`, main.py lines 78–82). -/
def specStatuses (spec : JSON) : Except NormError (List String) := do
  let testsJ ← pyGet spec "tests"
  let tests ← pyIter testsJ
  tests.foldlM (fun acc t => do
    let resultsJ ← pyGet t "results"
    let results ← pyIter resultsJ
    let sts ← results.mapM resultStatusLower
    pure (acc ++ sts)) []

/-- Models `spec_ok` (main.py lines 73–85): an explicit boolean `ok` decides;
otherwise failed if any nested result's status is `"failed"`, passed if
any is `"passed"` and none failed, else failed. -/
def spec_ok (spec : JSON) : Except NormError Bool := do
  let okv ← pyGet spec "ok"
  match okv with
  | .bool true => pure true
  | .bool false => pure false
  | _ => do
    let sts ← specStatuses spec
    if sts.contains "failed" then pure false
    else if sts.contains "passed" then pure true
    else pure false

mutual
/-- Size of a JSON tree, used as the fuel bound for the suite walks. -/
def jsonSize : JSON → Nat
  | .null => 1
  | .bool _ => 1
  | .num _ => 1
  | .str _ => 1
  | .arr l => 1 + jsonListSize l
  | .obj fs => 1 + jsonFieldsSize fs

def jsonListSize : List JSON → Nat
  | [] => 0
  | j :: js => jsonSize j + jsonListSize js

def jsonFieldsSize : List (String × JSON) → Nat
  | [] => 0
  | (_, j) :: fs => jsonSize j + jsonFieldsSize fs
end

/-- One step of the stats-branch walk's spec loop (main.py lines 20–37):
a spec contributes a failure dict exactly when its `ok` field is the
literal boolean `False` (`if ok is False:`). -/
def statsSpecStep (acc : List Failure) (spec : JSON) : Except NormError (List Failure) := do
  let okv ← pyGet spec "ok"
  match okv with
  | .bool false => do
    let f ← mkFailRecord spec
    pure (acc ++ [f])
  | _ => pure acc

/-- The `walk` of the stats branch (main.py lines 19–39): specs at this node
first, then recursion into nested `suites`.  Structural recursion on a
fuel argument; the wrapper passes `sizeOf node`, which always suffices
because every recursive call is on a child strictly smaller than the
node (a member of a field's list), so the fuel-exhausted case is
unreachable from the wrapper. -/
def statsWalkF : Nat → JSON → Except NormError (List Failure)
  | 0, _ => .error .typeErr
  | fuel + 1, node => do
    let specsJ ← pyGet node "specs"
    let specs ← pyIter specsJ
    let fails ← specs.foldlM statsSpecStep []
    let suitesJ ← pyGet node "suites"
    let suites ← pyIter suitesJ
    let subs ← suites.mapM (statsWalkF fuel)
    pure (fails ++ subs.flatten)

def statsWalk (node : JSON) : Except NormError (List Failure) :=
  statsWalkF (jsonSize node) node

/-- Accumulator of the suite-tree branch's walk (main.py lines 70–71 and
87–111): the three spec counters plus the failures list. -/
structure WalkAcc where
  total : Nat
  passed : Nat
  failed : Nat
  fails : List Failure
deriving Repr

/-- One step of the suite-tree walk's spec loop (main.py lines 89–110):
every spec counts toward `total_specs`; `spec_ok` decides between
`passed_specs` and `failed_specs`, and a failing spec contributes a
failure dict. -/
def suiteSpecStep (acc : WalkAcc) (spec : JSON) : Except NormError WalkAcc := do
  let ok ← spec_ok spec
  if ok then
    pure ⟨acc.total + 1, acc.passed + 1, acc.failed, acc.fails⟩
  else do
    let f ← mkFailRecord spec
    pure ⟨acc.total + 1, acc.passed, acc.failed + 1, acc.fails ++ [f]⟩

/-- The `walk` of the suite-tree branch (main.py lines 87–111), fueled like
`statsWalkF`. -/
def suiteWalkF : Nat → JSON → Except NormError WalkAcc
  | 0, _ => .error .typeErr
  | fuel + 1, node => do
    let specsJ ← pyGet node "specs"
    let specs ← pyIter specsJ
    let here ← specs.foldlM suiteSpecStep ⟨0, 0, 0, []⟩
    let suitesJ ← pyGet node "suites"
    let suites ← pyIter suitesJ
    suites.foldlM (fun acc s => do
      let sub ← suiteWalkF fuel s
      pure ⟨acc.total + sub.total, acc.passed + sub.passed,
            acc.failed + sub.failed, acc.fails ++ sub.fails⟩) here

def suiteWalk (node : JSON) : Except NormError WalkAcc :=
  suiteWalkF (jsonSize node) node

/-- The fixed PASS vocabulary of the flat-list shape (main.py line 61). -/
def passSet : List String := ["passed", "ok", "success", "succeeded", "expected"]

/-- The fixed FAIL vocabulary of the flat-list shape (main.py lines 62, 65). -/
def failSet : List String := ["failed", "fail", "broken", "error", "unexpected"]

/-- Models `status_of` of the flat-list branch (main.py lines 58–59):
`(t.get("status") or t.get("outcome") or t.get("state") or t.get("result") or "").lower()`.
Python short-circuits the later `.get`s, but each `.get` on a dict is
pure, and a non-dict `t` fails at the first `.get` either way, so
evaluating all four then chaining is observationally identical. -/
def flatStatus (t : JSON) : Except NormError String := do
  let a ← pyGet t "status"
  let b ← pyGet t "outcome"
  let c ← pyGet t "state"
  let d ← pyGet t "result"
  match pyOrJ a (pyOrJ b (pyOrJ c (pyOrJ d (.str "")))) with
  | .str s => .ok (pyLower s)
  | _ => .error .typeErr

/-- The flat-list candidate value (main.py line 56):
`raw.get("tests") or raw.get("specs") or raw.get("results") or raw.get("cases") or []`. -/
def flatTests (raw : JSON) : JSON :=
  pyOrJ (raw.getD "tests") (pyOrJ (raw.getD "specs")
    (pyOrJ (raw.getD "results") (pyOrJ (raw.getD "cases") (.arr []))))

/-- The explicit-summary branch's failures value (main.py line 52):
`raw.get("failures") or raw.get("failed") or raw.get("failedTests") or []`,
returned by the source verbatim.  A list becomes external failure values;
a truthy non-list value (which the source would also return unchanged) is
boxed as one external value to keep a single return type. -/
def chainFailures (j : JSON) : List Failure :=
  match j with
  | .arr l => l.map Failure.external
  | other => [Failure.external other]

/-- Code-point lexicographic `≤` on character lists — Python's string
ordering. -/
def charListLe : List Char → List Char → Bool
  | [], _ => true
  | _ :: _, [] => false
  | a :: as, b :: bs => if a = b then charListLe as bs else a.toNat < b.toNat

def strLe (a b : String) : Bool := charListLe a.data b.data

/-- Sorted top-level keys joined by `", "` — the `KeyError` message of
main.py lines 116–117 (`", ".join(sorted(raw.keys()))`). -/
def insertStr (s : String) : List String → List String
  | [] => [s]
  | t :: ts => if strLe s t then s :: t :: ts else t :: insertStr s ts

def sortStrings (l : List String) : List String := l.foldr insertStr []

def topKeysMsg (fs : List (String × JSON)) : String :=
  String.intercalate ", " (sortStrings (fs.map (fun p => p.1)))

/-- The failures value of the flat-list branch (main.py lines 63–65):
an explicit top-level `failures` list is passed through; otherwise
the FAIL-bucketed test records are synthesized (each test paired here
with its already-computed lowered status). -/
def flatFailures (rfs : List (String × JSON)) (tests : List JSON) (sts : List String) :
    List Failure :=
  match (JSON.obj rfs).getD "failures" with
  | .arr l => l.map Failure.external
  | _ => ((tests.zip sts).filter (fun p => failSet.contains p.2)).map
      (fun p => Failure.external p.1)

/-- The body of `_normalize_results` (main.py lines 5–117) for a dict
document with field list `rfs`.  The branch order is the source's:
stats, explicit summary, flat list, suite tree, error. -/
def normalizeObj (rfs : List (String × JSON)) : Except NormError (Summary × List Failure) :=
    -- 0) Playwright stats (preferred when present; `st` inlined)
    if isObjJ ((JSON.obj rfs).getD "stats") then do
      let e ← coerce0 (((JSON.obj rfs).getD "stats").getD "expected")
      let u ← coerce0 (((JSON.obj rfs).getD "stats").getD "unexpected")
      let fl ← coerce0 (((JSON.obj rfs).getD "stats").getD "flaky")
      let sk ← coerce0 (((JSON.obj rfs).getD "stats").getD "skipped")
      let tops ← pyIter ((JSON.obj rfs).getD "suites")
      let fss ← tops.mapM statsWalk
      pure (⟨e + u + fl + sk, e, u⟩, fss.flatten)
    else
      -- 1) Explicit summary (`s` inlined)
      if isObjJ ((JSON.obj rfs).getD "summary") then do
        let total ← coerce0 (((JSON.obj rfs).getD "summary").getD "total")
        let passed ← coerce0 (((JSON.obj rfs).getD "summary").getD "passed")
        let failed ← intE (pyOrJ (((JSON.obj rfs).getD "summary").getD "failed")
          (pyOrJ (((JSON.obj rfs).getD "summary").getD "failures")
            (.num (max (total - passed) 0))))
        pure (⟨total, passed, failed⟩, chainFailures
          (pyOrJ ((JSON.obj rfs).getD "failures")
            (pyOrJ ((JSON.obj rfs).getD "failed")
              (pyOrJ ((JSON.obj rfs).getD "failedTests") (.arr [])))))
      else
        -- 2) Flat tests/specs/results arrays (non-empty list required)
        match flatTests (JSON.obj rfs) with
        | .arr (t0 :: ts) => do
          let sts ← (t0 :: ts).mapM flatStatus
          pure (⟨((t0 :: ts).length : Int),
                 (sts.countP (fun s => passSet.contains s) : Int),
                 (sts.countP (fun s => failSet.contains s) : Int)⟩,
                flatFailures rfs (t0 :: ts) sts)
        | _ =>
          -- 3) Playwright-style nested suites (if stats missing)
          match (JSON.obj rfs).getD "suites" with
          | .arr l => do
            let acc ← l.foldlM (fun acc s => do
                let sub ← suiteWalk s
                pure (⟨acc.total + sub.total, acc.passed + sub.passed,
                       acc.failed + sub.failed, acc.fails ++ sub.fails⟩ : WalkAcc))
              (⟨0, 0, 0, []⟩ : WalkAcc)
            pure (⟨(acc.total : Int), (acc.passed : Int), (acc.failed : Int)⟩, acc.fails)
          | _ =>
            -- 4) Nothing matched → helpful error
            .error (.keyErr (topKeysMsg rfs))

/-- Models `_normalize_results` (main.py lines 5–117): a non-dict document
raises at the first `raw.get` (`typeErr`); a dict is handled by
`normalizeObj`. -/
def _normalize_results (raw : JSON) : Except NormError (Summary × List Failure) :=
  match raw with
  | .obj rfs => normalizeObj rfs
  | _ => .error .typeErr

/-- Character class of the first substitution's regex, `[^\\s]` inside
`r"/__w/[^\\s]+"`: in that raw string the class escapes a literal
backslash and then lists the letter `s`, so it matches any character
other than a backslash or `s` (it is not `\s`, the whitespace class). -/
def wdClass (c : Char) : Bool := c != '\\' && c != 's'

/-- Models `re.sub(r"/__w/[^\\s]+", "<WORKDIR>", text)` (main.py line 121):
leftmost-first scan; a match is the literal `/__w/` followed by a
maximal non-empty run of `wdClass` characters; the replacement is not
rescanned.  Fueled structural recursion; every step consumes at least
one character, so `length` fuel (the wrapper's choice) never runs out. -/
def subWorkdirF : Nat → List Char → List Char
  | 0, l => l
  | fuel + 1, l =>
    match l with
    | '/' :: '_' :: '_' :: 'w' :: '/' :: rest =>
      if (rest.takeWhile wdClass).isEmpty then
        '/' :: subWorkdirF fuel ('_' :: '_' :: 'w' :: '/' :: rest)
      else
        "<WORKDIR>".data ++ subWorkdirF fuel (rest.dropWhile wdClass)
    | c :: cs => c :: subWorkdirF fuel cs
    | [] => []

def subWorkdir (s : String) : String := ⟨subWorkdirF s.data.length s.data⟩

/-- Models `re.sub(r":\\d+", ":", t)` (main.py line 122).  In the raw string
`r":\\d+"` the `\\` is a literal backslash, so the regex matches a colon,
a literal backslash, then one or more `d` characters — it does NOT match
`:<digits>` despite the adjacent `# strip line numbers` comment.  Fueled
like `subWorkdirF`. -/
def subColonBackslashD : Nat → List Char → List Char
  | 0, l => l
  | fuel + 1, ':' :: '\\' :: 'd' :: rest =>
    ':' :: subColonBackslashD fuel (rest.dropWhile (fun c => c = 'd'))
  | fuel + 1, c :: cs => c :: subColonBackslashD fuel cs
  | _ + 1, [] => []

def subColonD (s : String) : String := ⟨subColonBackslashD s.data.length s.data⟩

def listStartsWith : List Char → List Char → Bool
  | [], _ => true
  | _ :: _, [] => false
  | p :: ps, c :: cs => p = c && listStartsWith ps cs

/-- Python `str.replace(pat, rep)` for a non-empty `pat` (every keyword
below is non-empty): left-to-right, non-overlapping, all occurrences,
the replacement text not rescanned.  Fueled structural recursion; each
step consumes at least one character, so `length` fuel suffices. -/
def replaceAllF : Nat → List Char → List Char → List Char → List Char
  | 0, _, _, l => l
  | fuel + 1, pat, rep, l =>
    match l with
    | [] => []
    | c :: cs =>
      if listStartsWith pat (c :: cs) then
        rep ++ replaceAllF fuel pat rep ((c :: cs).drop pat.length)
      else c :: replaceAllF fuel pat rep cs

def pyReplace (s pat rep : String) : String :=
  ⟨replaceAllF s.data.length pat.data rep.data s.data⟩

/-- The keyword vocabulary of `_signature` (main.py lines 125–128), in
its replacement order. -/
def sigKeywords : List String :=
  ["timeout", "tocontaintext", "element(s) not found",
   "waiting for locator", "click", "authentication", "401"]

/-- Models `_signature` (main.py lines 119–131).  The caller resolves the
`text or ""` guard: a falsy argument is passed here as `""`. -/
def _signature (text : String) : String :=
  let t := subWorkdir text
  let t := subColonD t
  let t := pyLower t
  let t := sigKeywords.foldl (fun s k => pyReplace s k ("[" ++ k ++ "]")) t
  let t := pyStrip t
  if t = "" then "[unknown]" else t

/-- The signature input for one failure record (main.py lines 136–137):
`"\n".join(m for m in msgs if m) or f.get("title", "unknown")`.  The
records built by the normalizer always carry the `title` key, so the
`"unknown"` default never fires for them; a falsy title feeds `""` into
`_signature` (whose `text or ""` guard absorbs it); a truthy non-string
title would raise inside `re.sub`. -/
def clusterBase (f : FailureRecord) : Except NormError String :=
  let joined := String.intercalate "\n" (f.messages.filter (fun m => m ≠ ""))
  if joined ≠ "" then .ok joined
  else
    match f.title with
    | .str s => .ok s
    | t => if pyTruthy t then .error .typeErr else .ok ""

/-- An `examples` entry (main.py lines 142–146); the record dicts always
carry the three keys, so the `"?"`/`"(no title)"` defaults never fire
for them. -/
structure ClusterEx where
  file : JSON
  line : JSON
  title : JSON
deriving Repr

def exampleOf (f : FailureRecord) : ClusterEx := ⟨f.file, f.line, f.title⟩

/-- A cluster group (main.py line 139): `{"sig": ..., "count": ..., "examples": ...}`. -/
structure Cluster where
  sig : String
  count : Nat
  examples : List ClusterEx
deriving Repr

/-- Models `groups.setdefault(sig, ...)` followed by the count/example updates
(main.py lines 139–146), on an insertion-ordered association list (a
Python dict preserves insertion order). -/
def addToGroups (gs : List Cluster) (sig : String) (ex : ClusterEx) : List Cluster :=
  match gs with
  | [] => [⟨sig, 1, [ex]⟩]
  | g :: rest =>
    if g.sig = sig then ⟨g.sig, g.count + 1, g.examples ++ [ex]⟩ :: rest
    else g :: addToGroups rest sig ex

/-- The grouping loop of `_cluster_failures` (main.py lines 134–146),
taking each record paired with its already-computed signature. -/
def buildGroups (l : List (FailureRecord × String)) : List Cluster :=
  l.foldl (fun gs p => addToGroups gs p.2 (exampleOf p.1)) []

/-- The per-record signatures, in order (the `sig = _signature(base)` of
main.py line 138); an error is a Python exception aborting the call. -/
def clusterSigs (fs : List FailureRecord) : Except NormError (List String) :=
  fs.mapM (fun f => (clusterBase f).map _signature)

/-- Stable insertion for a descending-by-count sort: the new element goes
after every element whose count is greater than or equal to its own. -/
def insertDesc (c : Cluster) : List Cluster → List Cluster
  | [] => [c]
  | d :: ds => if d.count < c.count then c :: d :: ds else d :: insertDesc c ds

/-- Models `sorted(groups.values(), key=lambda x: -x["count"])` (main.py line
147): a stable sort, descending by count, of the insertion-ordered
groups. -/
def sortByCountDesc (l : List Cluster) : List Cluster :=
  l.foldl (fun acc c => insertDesc c acc) []

/-- Models `_cluster_failures` (main.py lines 133–147), modeled on the failure
record dicts the normalizer's suite walks build (the source also accepts
plain strings and arbitrary dicts in the list; no claim involves those). -/
def _cluster_failures (fs : List FailureRecord) : Except NormError (List Cluster) :=
  (clusterSigs fs).map (fun sigs => sortByCountDesc (buildGroups (fs.zip sigs)))

/-- The examples a cluster displays: `c["examples"][:max_examples]`
(main.py line 176; the CLI default for `max_examples` is 2). -/
def displayedExamples (c : Cluster) (maxExamples : Nat) : List ClusterEx :=
  c.examples.take maxExamples

/-- Order of first appearance of the values of a list (used to state what
insertion order of the groups dict means). -/
def firstSeen (l : List String) : List String :=
  l.foldl (fun acc s => if acc.contains s then acc else acc ++ [s]) []

/-- The first group carrying a given signature (groups never hold two
entries with one signature, mirroring dict-key uniqueness). -/
def groupFind (gs : List Cluster) (s : String) : Option Cluster :=
  gs.find? (fun g => g.sig == s)

/-- The count of the group for a signature (0 when absent). -/
def groupCount (gs : List Cluster) (s : String) : Nat :=
  ((groupFind gs s).map (fun g => g.count)).getD 0

/-- The examples of the group for a signature ([] when absent). -/
def groupExs (gs : List Cluster) (s : String) : List ClusterEx :=
  ((groupFind gs s).map (fun g => g.examples)).getD []

/-- Three failure records, two sharing a message (claim C9's witness). -/
def c9rec1 : FailureRecord := ⟨.str "a", .str "f1.ts", .num 1, ["boom"]⟩

def c9rec2 : FailureRecord := ⟨.str "b", .str "f2.ts", .num 2, ["other"]⟩

def c9rec3 : FailureRecord := ⟨.str "c", .str "f3.ts", .num 3, ["boom"]⟩

/-! ### Concrete documents used by counterexamples and witnesses -/

/-- The end-to-end example document of the spec (§8) and claim C1. -/
def c1doc : JSON := .obj [
  ("stats", .obj [("expected", .num 8), ("unexpected", .num 2),
                  ("flaky", .num 1), ("skipped", .num 0)]),
  ("suites", .arr [.obj [("specs", .arr [.obj [
    ("title", .str "t1"), ("file", .str "a.spec.ts"), ("line", .num 10),
    ("tests", .arr [.obj [("results", .arr [.obj [
      ("status", .str "failed"),
      ("error", .obj [("message", .str "401 Unauthorized")])]])]])]])]])]

/-- A document carrying both a `summary` object and a `stats` object,
with disagreeing counts (claim C2). -/
def c2doc : JSON := .obj [
  ("summary", .obj [("total", .num 5), ("passed", .num 4), ("failed", .num 1)]),
  ("stats", .obj [("expected", .num 1), ("unexpected", .num 0)])]

/-- Two failure records whose messages are identical except for the
trailing `:<digits>` suffix and the differing `/__w/...` path segment
(claim C3). -/
def c3rec1 : FailureRecord := ⟨.str "t1", .str "x.ts", .num 3, ["failed /__w/aaa/x.ts:10"]⟩

def c3rec2 : FailureRecord := ⟨.str "t2", .str "x.ts", .num 7, ["failed /__w/bbb/x.ts:20"]⟩

/-- The unrecognized document of claim C6. -/
def c6doc : JSON := .obj [("foo", .num 1), ("bar", .num 2)]

/-- Numeric `tests`/`passes`/`failures` counters (claim C8). -/
def c8doc : JSON := .obj [("tests", .num 10), ("passes", .num 7), ("failures", .num 3)]

/-- A summary with an explicit `"failed": 0` (claim C10). -/
def c10doc : JSON := .obj [("summary", .obj
  [("total", .num 5), ("passed", .num 3), ("failed", .num 0)])]

/-- A stats document without suites (claim C4's witness). -/
def c4doc : JSON := .obj [("stats", .obj [("expected", .num 3), ("unexpected", .num 1)])]

/-- A flat-list document with a PASS-vocabulary status (upper-case), a
FAIL-vocabulary status under the alternate `outcome` key, and a status
outside both vocabularies (claim C7's witness). -/
def c7doc : JSON := .obj [("tests", .arr [
  .obj [("status", .str "PASSED")],
  .obj [("outcome", .str "broken")],
  .obj [("status", .str "oddball")]])]

/-- A spec with no `ok` field whose only nested result has an unknown
status (claim C5's witness). -/
def c5spec : JSON := .obj [("title", .str "t"),
  ("tests", .arr [.obj [("results", .arr [.obj [("status", .str "weird")]])]])]

/-! ### Claim C1 -/

/-- C1 counterexample: on the claim's exact input the stats branch is
taken and, because the spec carries no `"ok": false` field, the walk
(which records a failure only when `ok is False`) produces an empty
failure list — not the one FailureRecord for `t1` the claim asserts. -/
theorem C1_counterexample :
    ∃ s fs, _normalize_results c1doc = .ok (s, fs) ∧ fs.length = 0 :=
  ⟨⟨11, 8, 2⟩, [], rfl, rfl⟩

/-- C1 as amended: the claim's input yields the summary
`total = 11, passed = 8, failed = 2` and an empty failure list (the
example spec lacks an explicit `"ok": false`, and the stats-shape walk
records a failure only when `ok` is literally `False`), so clustering
yields no clusters. -/
theorem C1_amended_end_to_end :
    _normalize_results c1doc = .ok (⟨11, 8, 2⟩, []) ∧
    _cluster_failures [] = .ok [] :=
  ⟨rfl, rfl⟩

/-! ### Claim C2 -/

/-- C2 counterexample: a document with both a `summary` and a `stats`
object is classified by the stats branch — branch 0 of the source, ahead
of the summary branch — so the counts come from `stats`
(`total = 1, passed = 1, failed = 0`), not from the `summary` object
(which would give `total = 5, passed = 4, failed = 1`). -/
theorem C2_counterexample :
    _normalize_results c2doc = .ok (⟨1, 1, 0⟩, []) ∧
    (⟨1, 1, 0⟩ : Summary) ≠ ⟨5, 4, 1⟩ :=
  ⟨rfl, by decide⟩

/-! ### Claim C3 -/

/-- C3 (code bug): the signature transform does not strip `:<digits>`
suffixes — the source's `re.sub(r":\\d+", ":", t)` matches a literal
backslash followed by `d`s, never digits, despite its own
`# strip line numbers` comment — so two failures identical except for
the trailing line number (and a differing `/__w/` path segment, which
does get collapsed here) produce two distinct signatures and two
clusters instead of the single cluster the claim requires. -/
theorem C3_code_bug_two_clusters :
    _cluster_failures [c3rec1, c3rec2] = .ok
      [⟨"failed <workdir>s:10", 1, [⟨.str "x.ts", .num 3, .str "t1"⟩]⟩,
       ⟨"failed <workdir>s:20", 1, [⟨.str "x.ts", .num 7, .str "t2"⟩]⟩] ∧
    _signature "failed /__w/aaa/x.ts:10" ≠ _signature "failed /__w/bbb/x.ts:20" :=
  ⟨rfl, by decide⟩

/-! ### Claim C8 (counterexample part) -/

/-- C8 counterexample: numeric `tests`/`passes`/`failures` counters match
no branch — the flat-list branch requires `tests` to be a non-empty
list — so the normalizer raises the shape-detection error instead of
returning the counters verbatim. -/
theorem C8_counterexample :
    _normalize_results c8doc = .error (.keyErr "failures, passes, tests") :=
  rfl

/-! ### Monad-unfolding helper lemmas for `Except` -/

theorem exceptBind_ok {ε α β : Type} (a : α) (f : α → Except ε β) :
    (Except.ok a : Except ε α) >>= f = f a := rfl

theorem exceptBind_error {ε α β : Type} (e : ε) (f : α → Except ε β) :
    (Except.error e : Except ε α) >>= f = .error e := rfl

theorem exceptPure {ε α : Type} (a : α) : (pure a : Except ε α) = .ok a := rfl

/-- Helper: whatever the stats branch returns, its summary is
`⟨e + u + fl + sk, e, u⟩` for the four coerced counters. -/
theorem normStats (rfs stf : List (String × JSON))
    (hst : (JSON.obj rfs).getD "stats" = .obj stf)
    (e u fl sk : Int)
    (he : coerce0 ((JSON.obj stf).getD "expected") = .ok e)
    (hu : coerce0 ((JSON.obj stf).getD "unexpected") = .ok u)
    (hf : coerce0 ((JSON.obj stf).getD "flaky") = .ok fl)
    (hk : coerce0 ((JSON.obj stf).getD "skipped") = .ok sk)
    (out : Summary × List Failure)
    (hrun : _normalize_results (JSON.obj rfs) = .ok out) :
    out.1 = ⟨e + u + fl + sk, e, u⟩ := by
  have hrun2 : normalizeObj rfs = .ok out := hrun
  unfold normalizeObj at hrun2
  rw [hst] at hrun2
  simp only [isObjJ, if_true, he, hu, hf, hk, exceptBind_ok] at hrun2
  cases hpi : pyIter ((JSON.obj rfs).getD "suites") with
  | error er => rw [hpi] at hrun2; simp [exceptBind_error] at hrun2
  | ok tops =>
    rw [hpi] at hrun2
    simp only [exceptBind_ok] at hrun2
    cases hm : tops.mapM statsWalk with
    | error er => rw [hm] at hrun2; simp [exceptBind_error] at hrun2
    | ok fss =>
      rw [hm] at hrun2
      simp only [exceptBind_ok, exceptPure, Except.ok.injEq] at hrun2
      subst hrun2
      rfl

/-! ### Claim C4 -/

/-- C4: for any document whose top level carries a `stats` object, a
successful normalization reports `passed` as the coerced `expected`
counter, `failed` as the coerced `unexpected` counter, and `total` as
`expected + unexpected + flaky + skipped`, each counter coerced to 0
when absent or falsy (`coerce0` is the `int(x or 0)` idiom). -/
theorem C4_stats_arithmetic (raw : JSON) (stf : List (String × JSON))
    (hst : raw.getD "stats" = .obj stf)
    (e u fl sk : Int)
    (he : coerce0 ((JSON.obj stf).getD "expected") = .ok e)
    (hu : coerce0 ((JSON.obj stf).getD "unexpected") = .ok u)
    (hf : coerce0 ((JSON.obj stf).getD "flaky") = .ok fl)
    (hk : coerce0 ((JSON.obj stf).getD "skipped") = .ok sk)
    (out : Summary × List Failure)
    (hrun : _normalize_results raw = .ok out) :
    out.1.passed = e ∧ out.1.failed = u ∧ out.1.total = e + u + fl + sk := by
  cases raw with
  | obj rfs =>
    have h := normStats rfs stf hst e u fl sk he hu hf hk out hrun
    rw [h]
    exact ⟨rfl, rfl, rfl⟩
  | null => simp [JSON.getD] at hst
  | bool b => simp [JSON.getD] at hst
  | num n => simp [JSON.getD] at hst
  | str s => simp [JSON.getD] at hst
  | arr l => simp [JSON.getD] at hst

/-- C4 witness: a concrete stats document with `flaky`/`skipped` absent. -/
theorem C4_witness :
    ∃ out, _normalize_results c4doc = .ok out ∧
      out.1.passed = 3 ∧ out.1.failed = 1 ∧ out.1.total = 4 :=
  ⟨(⟨4, 3, 1⟩, []), rfl,
    C4_stats_arithmetic c4doc
      [("expected", .num 3), ("unexpected", .num 1)] rfl
      3 1 0 0 rfl rfl rfl rfl (⟨4, 3, 1⟩, []) rfl⟩

/-! ### Claim C2 (amended part) -/

/-- C2 as amended: the structured-stats shape, not the summary shape, is
first in the detection priority — for any document carrying both a
`summary` object and a `stats` object, a successful normalization takes
its counts from `stats`. -/
theorem C2_amended_stats_precedence (raw : JSON) (stf smf : List (String × JSON))
    (hst : raw.getD "stats" = .obj stf)
    (hsm : raw.getD "summary" = .obj smf)
    (e u fl sk : Int)
    (he : coerce0 ((JSON.obj stf).getD "expected") = .ok e)
    (hu : coerce0 ((JSON.obj stf).getD "unexpected") = .ok u)
    (hf : coerce0 ((JSON.obj stf).getD "flaky") = .ok fl)
    (hk : coerce0 ((JSON.obj stf).getD "skipped") = .ok sk)
    (out : Summary × List Failure)
    (hrun : _normalize_results raw = .ok out) :
    out.1 = ⟨e + u + fl + sk, e, u⟩ := by
  cases raw with
  | obj rfs => exact normStats rfs stf hst e u fl sk he hu hf hk out hrun
  | null => simp [JSON.getD] at hst
  | bool b => simp [JSON.getD] at hst
  | num n => simp [JSON.getD] at hst
  | str s => simp [JSON.getD] at hst
  | arr l => simp [JSON.getD] at hst

/-- C2 amended witness: the counterexample document, with both objects
present, normalizes to the stats-derived counts. -/
theorem C2_amended_witness :
    ∃ out, _normalize_results c2doc = .ok out ∧ out.1 = ⟨1, 1, 0⟩ :=
  ⟨(⟨1, 1, 0⟩, []), rfl,
    C2_amended_stats_precedence c2doc
      [("expected", .num 1), ("unexpected", .num 0)]
      [("total", .num 5), ("passed", .num 4), ("failed", .num 1)]
      rfl rfl 1 0 0 0 rfl rfl rfl rfl (⟨1, 1, 0⟩, []) rfl⟩

/-- Helper: when no branch matches — no `stats` object, no `summary`
object, no non-empty flat test list, no `suites` list — the normalizer
fails with the `KeyError` listing the sorted top-level keys. -/
theorem normNoShape (rfs : List (String × JSON))
    (h0 : isObjJ ((JSON.obj rfs).getD "stats") = false)
    (h1 : isObjJ ((JSON.obj rfs).getD "summary") = false)
    (h2 : ∀ t ts, flatTests (JSON.obj rfs) ≠ .arr (t :: ts))
    (h3 : isArrJ ((JSON.obj rfs).getD "suites") = false) :
    _normalize_results (JSON.obj rfs) = .error (.keyErr (topKeysMsg rfs)) := by
  show normalizeObj rfs = _
  unfold normalizeObj
  simp only [h0, h1, Bool.false_eq_true, if_false]
  cases hft : flatTests (JSON.obj rfs) with
  | arr l =>
    cases l with
    | cons t ts => exact absurd hft (h2 t ts)
    | nil =>
      cases hsu2 : (JSON.obj rfs).getD "suites" with
      | arr l2 => rw [hsu2] at h3; simp [isArrJ] at h3
      | null => rfl
      | bool b => rfl
      | num n => rfl
      | str s => rfl
      | obj o => rfl
  | null =>
    cases hsu2 : (JSON.obj rfs).getD "suites" with
    | arr l2 => rw [hsu2] at h3; simp [isArrJ] at h3
    | null => rfl
    | bool b => rfl
    | num n => rfl
    | str s => rfl
    | obj o => rfl
  | bool b =>
    cases hsu2 : (JSON.obj rfs).getD "suites" with
    | arr l2 => rw [hsu2] at h3; simp [isArrJ] at h3
    | null => rfl
    | bool b => rfl
    | num n => rfl
    | str s => rfl
    | obj o => rfl
  | num n =>
    cases hsu2 : (JSON.obj rfs).getD "suites" with
    | arr l2 => rw [hsu2] at h3; simp [isArrJ] at h3
    | null => rfl
    | bool b => rfl
    | num n => rfl
    | str s => rfl
    | obj o => rfl
  | str s =>
    cases hsu2 : (JSON.obj rfs).getD "suites" with
    | arr l2 => rw [hsu2] at h3; simp [isArrJ] at h3
    | null => rfl
    | bool b => rfl
    | num n => rfl
    | str s => rfl
    | obj o => rfl
  | obj o =>
    cases hsu2 : (JSON.obj rfs).getD "suites" with
    | arr l2 => rw [hsu2] at h3; simp [isArrJ] at h3
    | null => rfl
    | bool b => rfl
    | num n => rfl
    | str s => rfl
    | obj o => rfl

/-! ### Claim C6 -/

/-- C6: a document matching none of the recognized shapes — no `stats`
object, no `summary` object, no non-empty flat test list under
`tests`/`specs`/`results`/`cases`, no `suites` list — makes the
normalizer raise the shape-detection `KeyError` whose message lists the
document's top-level keys in sorted order; it never returns a summary
for such an input. -/
theorem C6_shape_detection_error (rfs : List (String × JSON))
    (h0 : isObjJ ((JSON.obj rfs).getD "stats") = false)
    (h1 : isObjJ ((JSON.obj rfs).getD "summary") = false)
    (h2 : ∀ t ts, flatTests (JSON.obj rfs) ≠ .arr (t :: ts))
    (h3 : isArrJ ((JSON.obj rfs).getD "suites") = false) :
    _normalize_results (JSON.obj rfs) = .error (.keyErr (topKeysMsg rfs)) :=
  normNoShape rfs h0 h1 h2 h3

/-- C6 witness: `{"foo": 1, "bar": 2}` raises with message `"bar, foo"`. -/
theorem C6_witness :
    _normalize_results c6doc = .error (.keyErr "bar, foo") :=
  C6_shape_detection_error [("foo", .num 1), ("bar", .num 2)] rfl rfl
    (fun t ts h => List.noConfusion (JSON.arr.inj h)) rfl

/-! ### Claim C8 (amended part) -/

/-- C8 as amended: numeric `tests`/`passes`/`failures` counters are not
taken verbatim — a document whose `tests` field is a non-zero number,
with no `stats` or `summary` object and no `suites` list, matches no
recognized shape, so the normalizer raises the shape-detection error
listing its sorted top-level keys. -/
theorem C8_amended_counters_error (rfs : List (String × JSON)) (n : Int)
    (h0 : isObjJ ((JSON.obj rfs).getD "stats") = false)
    (h1 : isObjJ ((JSON.obj rfs).getD "summary") = false)
    (ht : (JSON.obj rfs).getD "tests" = .num n) (hn : n ≠ 0)
    (h3 : isArrJ ((JSON.obj rfs).getD "suites") = false) :
    _normalize_results (JSON.obj rfs) = .error (.keyErr (topKeysMsg rfs)) := by
  apply normNoShape rfs h0 h1 _ h3
  intro t ts h
  unfold flatTests at h
  rw [ht] at h
  simp [pyOrJ, pyTruthy, hn] at h

/-- C8 amended witness: the counters document raises with its keys
sorted into `"failures, passes, tests"`. -/
theorem C8_amended_witness :
    _normalize_results c8doc = .error (.keyErr "failures, passes, tests") :=
  C8_amended_counters_error [("tests", .num 10), ("passes", .num 7), ("failures", .num 3)]
    10 rfl rfl rfl (by decide) rfl

/-! ### Claim C10 -/

/-- C10: in the explicit-summary shape, when the summary's `failed` and
`failures` entries are both absent or otherwise falsy, the reported
`failed` is `max(total - passed, 0)` — in particular an explicit
`"failed": 0` is overridden by the difference. -/
theorem C10_summary_failed_fallback (raw : JSON) (smf : List (String × JSON))
    (hns : isObjJ (raw.getD "stats") = false)
    (hsm : raw.getD "summary" = .obj smf)
    (T P : Int)
    (hT : coerce0 ((JSON.obj smf).getD "total") = .ok T)
    (hP : coerce0 ((JSON.obj smf).getD "passed") = .ok P)
    (hfd : pyTruthy ((JSON.obj smf).getD "failed") = false)
    (hfs : pyTruthy ((JSON.obj smf).getD "failures") = false) :
    ∃ fls, _normalize_results raw = .ok (⟨T, P, max (T - P) 0⟩, fls) := by
  cases raw with
  | obj rfs =>
    refine ⟨chainFailures (pyOrJ ((JSON.obj rfs).getD "failures")
      (pyOrJ ((JSON.obj rfs).getD "failed")
        (pyOrJ ((JSON.obj rfs).getD "failedTests") (.arr [])))), ?_⟩
    show normalizeObj rfs = _
    unfold normalizeObj
    rw [hns, hsm]
    simp only [Bool.false_eq_true, if_false, isObjJ, if_true, hT, hP,
      exceptBind_ok, pyOrJ, hfd, hfs, intE, pyToInt, exceptPure]
  | null => simp [JSON.getD] at hsm
  | bool b => simp [JSON.getD] at hsm
  | num n => simp [JSON.getD] at hsm
  | str s => simp [JSON.getD] at hsm
  | arr l => simp [JSON.getD] at hsm

/-- C10 witness: `{"summary": {"total": 5, "passed": 3, "failed": 0}}`
reports `failed = 2`, not 0. -/
theorem C10_witness :
    ∃ fls, _normalize_results c10doc = .ok (⟨5, 3, 2⟩, fls) :=
  C10_summary_failed_fallback c10doc
    [("total", .num 5), ("passed", .num 3), ("failed", .num 0)]
    rfl rfl 5 3 rfl rfl rfl rfl

/-- Length preservation of a successful `mapM` over `Except`. -/
theorem mapM_ok_length {ε α β : Type} (f : α → Except ε β) :
    ∀ (l : List α) (l2 : List β), l.mapM f = .ok l2 → l2.length = l.length := by
  intro l
  induction l with
  | nil =>
    intro l2 h
    rw [List.mapM_nil] at h
    cases h
    rfl
  | cons a t ih =>
    intro l2 h
    rw [List.mapM_cons] at h
    cases hfa : f a with
    | error e => rw [hfa] at h; exact absurd h (by simp [exceptBind_error])
    | ok b =>
      rw [hfa, exceptBind_ok] at h
      cases hmt : t.mapM f with
      | error e => rw [hmt] at h; exact absurd h (by simp [exceptBind_error])
      | ok bs =>
        rw [hmt, exceptBind_ok] at h
        cases h
        simp [ih bs hmt]

/-- The PASS and FAIL vocabularies are disjoint. -/
theorem pass_fail_disjoint (s : String) (h : passSet.contains s = true) :
    failSet.contains s = false := by
  simp [passSet] at h
  rcases h with rfl | rfl | rfl | rfl | rfl <;> decide

/-- Every status lands in exactly one of the PASS, FAIL, or neither
buckets, so the three bucket counts partition the list length. -/
theorem count_partition (sts : List String) :
    sts.countP (fun s => passSet.contains s)
      + sts.countP (fun s => failSet.contains s)
      + sts.countP (fun s => !passSet.contains s && !failSet.contains s)
      = sts.length := by
  induction sts with
  | nil => rfl
  | cons s l ih =>
    simp only [List.countP_cons, List.length_cons]
    cases hp : passSet.contains s with
    | true =>
      have hf := pass_fail_disjoint s hp
      simp only [hp, hf, Bool.not_true, Bool.not_false, Bool.false_and, Bool.true_and,
        Bool.and_false, Bool.and_true, eq_self_iff_true, if_true, Bool.false_eq_true, if_false]
      omega
    | false =>
      cases hf : failSet.contains s with
      | true =>
        simp only [hp, hf, Bool.not_true, Bool.not_false, Bool.false_and, Bool.true_and,
          Bool.and_false, Bool.and_true, eq_self_iff_true, if_true, Bool.false_eq_true, if_false]
        omega
      | false =>
        simp only [hp, hf, Bool.not_true, Bool.not_false, Bool.false_and, Bool.true_and,
          Bool.and_false, Bool.and_true, eq_self_iff_true, if_true, Bool.false_eq_true, if_false]
        omega

/-! ### Claim C7 -/

/-- C7: in the flat-list shape, `total` is the list length, `passed`
counts the statuses (case-insensitively, from the
status/outcome/state/result chain computed by `flatStatus`) in the PASS
vocabulary, `failed` counts those in the FAIL vocabulary, and — the two
vocabularies being disjoint — every record with a status outside both
contributes to `total` but to neither `passed` nor `failed`, as the
partition equation states. -/
theorem C7_flat_counts (rfs : List (String × JSON)) (t0 : JSON) (ts : List JSON)
    (sts : List String)
    (h0 : isObjJ ((JSON.obj rfs).getD "stats") = false)
    (h1 : isObjJ ((JSON.obj rfs).getD "summary") = false)
    (hft : flatTests (JSON.obj rfs) = .arr (t0 :: ts))
    (hsts : (t0 :: ts).mapM flatStatus = .ok sts) :
    _normalize_results (JSON.obj rfs) = .ok
      (⟨((t0 :: ts).length : Int),
        (sts.countP (fun s => passSet.contains s) : Int),
        (sts.countP (fun s => failSet.contains s) : Int)⟩,
       flatFailures rfs (t0 :: ts) sts)
    ∧ (t0 :: ts).length
        = sts.countP (fun s => passSet.contains s)
          + sts.countP (fun s => failSet.contains s)
          + sts.countP (fun s => !passSet.contains s && !failSet.contains s) := by
  constructor
  · show normalizeObj rfs = _
    unfold normalizeObj
    simp only [h0, h1, Bool.false_eq_true, if_false]
    rw [hft]
    simp only [hsts, exceptBind_ok, exceptPure]
  · have hlen := mapM_ok_length flatStatus (t0 :: ts) sts hsts
    rw [← hlen]
    exact (count_partition sts).symm

/-- C7 witness: an upper-case PASS status, an alternate-key FAIL status
and an out-of-vocabulary status give `total 3, passed 1, failed 1`. -/
theorem C7_witness :
    _normalize_results c7doc = .ok
      (⟨3, 1, 1⟩, [Failure.external (.obj [("outcome", .str "broken")])])
    ∧ (3 : Nat) = 1 + 1 + 1 :=
  C7_flat_counts
    [("tests", .arr [.obj [("status", .str "PASSED")],
      .obj [("outcome", .str "broken")], .obj [("status", .str "oddball")]])]
    (.obj [("status", .str "PASSED")])
    [.obj [("outcome", .str "broken")], .obj [("status", .str "oddball")]]
    ["passed", "broken", "oddball"] rfl rfl rfl rfl

/-! ### Claim C5 -/

/-- C5: in the suite-tree shape's per-spec classification (`spec_ok`,
applied by the walk's spec step at every nesting depth), an explicit
boolean `ok` decides pass/fail; with `ok` absent, a spec is failed if
any nested result's lowered status is `"failed"`, passed if one is
`"passed"` and none failed, and failed otherwise — in particular a spec
whose results all carry unknown statuses is never counted as passing.
The last two conjuncts tie the classification to the counters: the
walk's spec step increments `passed` exactly on `spec_ok = true` and
`failed` (recording a failure dict) exactly on `spec_ok = false`. -/
theorem C5_spec_ok_classification (spec : JSON) :
    (pyGet spec "ok" = .ok (.bool true) → spec_ok spec = .ok true)
    ∧ (pyGet spec "ok" = .ok (.bool false) → spec_ok spec = .ok false)
    ∧ (∀ sts : List String, pyGet spec "ok" = .ok .null →
        specStatuses spec = .ok sts →
        spec_ok spec = .ok (if sts.contains "failed" then false
          else if sts.contains "passed" then true else false))
    ∧ (∀ sts : List String, pyGet spec "ok" = .ok .null →
        specStatuses spec = .ok sts →
        sts.contains "failed" = false → sts.contains "passed" = false →
        spec_ok spec = .ok false)
    ∧ (∀ acc : WalkAcc, spec_ok spec = .ok true →
        suiteSpecStep acc spec = .ok ⟨acc.total + 1, acc.passed + 1, acc.failed, acc.fails⟩)
    ∧ (∀ (acc : WalkAcc) (f : Failure), spec_ok spec = .ok false →
        mkFailRecord spec = .ok f →
        suiteSpecStep acc spec = .ok
          ⟨acc.total + 1, acc.passed, acc.failed + 1, acc.fails ++ [f]⟩) := by
  refine ⟨?_, ?_, ?_, ?_, ?_, ?_⟩
  · intro h
    unfold spec_ok
    rw [h, exceptBind_ok]
    rfl
  · intro h
    unfold spec_ok
    rw [h, exceptBind_ok]
    rfl
  · intro sts hok hsts
    unfold spec_ok
    rw [hok, exceptBind_ok]
    show (do
      let sts2 ← specStatuses spec
      if sts2.contains "failed" then pure false
      else if sts2.contains "passed" then pure true
      else pure false) = _
    rw [hsts, exceptBind_ok]
    cases hc1 : sts.contains "failed" with
    | true => simp [hc1, exceptPure]
    | false =>
      cases hc2 : sts.contains "passed" with
      | true => simp [hc1, hc2, exceptPure]
      | false => simp [hc1, hc2, exceptPure]
  · intro sts hok hsts hc1 hc2
    unfold spec_ok
    rw [hok, exceptBind_ok]
    show (do
      let sts2 ← specStatuses spec
      if sts2.contains "failed" then pure false
      else if sts2.contains "passed" then pure true
      else pure false) = _
    rw [hsts, exceptBind_ok]
    simp only [hc1, hc2, Bool.false_eq_true, if_false, exceptPure]
  · intro acc h
    unfold suiteSpecStep
    rw [h, exceptBind_ok]
    rfl
  · intro acc f h hm
    unfold suiteSpecStep
    rw [h, exceptBind_ok]
    show (do
      let f2 ← mkFailRecord spec
      pure (⟨acc.total + 1, acc.passed, acc.failed + 1, acc.fails ++ [f2]⟩ : WalkAcc)) = _
    rw [hm, exceptBind_ok]
    rfl

/-- C5 witness: a spec with no `ok` and one unknown-status result is
classified failed. -/
theorem C5_witness : spec_ok c5spec = .ok false :=
  (C5_spec_ok_classification c5spec).2.2.2.1 ["weird"] rfl rfl rfl rfl

theorem mem_insertDesc (c x : Cluster) :
    ∀ l : List Cluster, x ∈ insertDesc c l ↔ x = c ∨ x ∈ l := by
  intro l
  induction l with
  | nil => simp [insertDesc]
  | cons d ds ih =>
    unfold insertDesc
    by_cases h : d.count < c.count
    · simp [h]
    · simp [h, ih]
      tauto

theorem insertDesc_pairwise (c : Cluster) (l : List Cluster)
    (h : l.Pairwise (fun a b => b.count ≤ a.count)) :
    (insertDesc c l).Pairwise (fun a b => b.count ≤ a.count) := by
  induction l with
  | nil => simp [insertDesc]
  | cons d ds ih =>
    unfold insertDesc
    rcases List.pairwise_cons.mp h with ⟨hd, hds⟩
    by_cases hc : d.count < c.count
    · simp only [hc, if_true]
      refine List.pairwise_cons.mpr ⟨?_, h⟩
      intro x hx
      rcases List.mem_cons.mp hx with rfl | hx2
      · omega
      · exact le_trans (hd x hx2) (le_of_lt hc)
    · simp only [hc, if_false]
      refine List.pairwise_cons.mpr ⟨?_, ih hds⟩
      intro x hx
      rcases (mem_insertDesc c x ds).mp hx with rfl | hx2
      · omega
      · exact hd x hx2

theorem sortByCountDesc_pairwise_aux (l acc : List Cluster)
    (h : acc.Pairwise (fun a b => b.count ≤ a.count)) :
    (l.foldl (fun a c => insertDesc c a) acc).Pairwise (fun a b => b.count ≤ a.count) := by
  induction l generalizing acc with
  | nil => exact h
  | cons c cs ih => exact ih (insertDesc c acc) (insertDesc_pairwise c acc h)

theorem sortByCountDesc_pairwise (l : List Cluster) :
    (sortByCountDesc l).Pairwise (fun a b => b.count ≤ a.count) :=
  sortByCountDesc_pairwise_aux l [] (List.Pairwise.nil)

theorem filter_count_nil (n : Nat) (l : List Cluster)
    (h : ∀ x ∈ l, x.count < n) :
    l.filter (fun d => d.count == n) = [] := by
  induction l with
  | nil => rfl
  | cons d ds ih =>
    rw [List.filter_cons]
    have hd := h d (List.mem_cons_self d ds)
    have : (d.count == n) = false := by
      simp only [beq_eq_false_iff_ne]
      omega
    simp only [this, Bool.false_eq_true, if_false]
    exact ih (fun x hx => h x (List.mem_cons_of_mem d hx))

theorem insertDesc_filter (c : Cluster) (n : Nat) (l : List Cluster)
    (h : l.Pairwise (fun a b => b.count ≤ a.count)) :
    (insertDesc c l).filter (fun d => d.count == n)
      = l.filter (fun d => d.count == n) ++ (if c.count == n then [c] else []) := by
  induction l with
  | nil => simp [insertDesc, List.filter_cons]
  | cons d ds ih =>
    rcases List.pairwise_cons.mp h with ⟨hd, hds⟩
    unfold insertDesc
    by_cases hc : d.count < c.count
    · simp only [hc, if_true]
      rw [List.filter_cons]
      by_cases hcn : c.count = n
      · have hnil : (d :: ds).filter (fun d => d.count == n) = [] := by
          apply filter_count_nil
          intro x hx
          rcases List.mem_cons.mp hx with rfl | hx2
          · omega
          · have := hd x hx2; omega
        simp only [hcn, beq_self_eq_true, if_true, hnil, List.nil_append]
      · have : (c.count == n) = false := by simp [hcn]
        simp only [this, Bool.false_eq_true, if_false, List.append_nil]
    · simp only [hc, if_false]
      rw [List.filter_cons, List.filter_cons, ih hds]
      by_cases hdn : d.count = n
      · simp [hdn]
      · have : (d.count == n) = false := by simp [hdn]
        simp only [this, Bool.false_eq_true, if_false]

theorem sortByCountDesc_filter_aux (n : Nat) (l acc : List Cluster)
    (h : acc.Pairwise (fun a b => b.count ≤ a.count)) :
    (l.foldl (fun a c => insertDesc c a) acc).filter (fun d => d.count == n)
      = acc.filter (fun d => d.count == n) ++ l.filter (fun d => d.count == n) := by
  induction l generalizing acc with
  | nil => simp
  | cons c cs ih =>
    show (cs.foldl (fun a c => insertDesc c a) (insertDesc c acc)).filter _ = _
    rw [ih (insertDesc c acc) (insertDesc_pairwise c acc h)]
    rw [insertDesc_filter c n acc h, List.filter_cons]
    by_cases hcn : c.count = n
    · simp only [hcn, beq_self_eq_true, if_true, List.append_assoc]
      rfl
    · have : (c.count == n) = false := by simp [hcn]
      simp only [this, Bool.false_eq_true, if_false, List.append_nil, List.append_assoc]

theorem sortByCountDesc_filter (n : Nat) (l : List Cluster) :
    (sortByCountDesc l).filter (fun d => d.count == n)
      = l.filter (fun d => d.count == n) := by
  have := sortByCountDesc_filter_aux n l [] List.Pairwise.nil
  simpa [sortByCountDesc] using this


theorem addToGroups_map_sig (gs : List Cluster) (s : String) (ex : ClusterEx) :
    (addToGroups gs s ex).map (fun g => g.sig)
      = if (gs.map (fun g => g.sig)).contains s
        then gs.map (fun g => g.sig)
        else gs.map (fun g => g.sig) ++ [s] := by
  induction gs with
  | nil => simp [addToGroups]
  | cons g rest ih =>
    unfold addToGroups
    by_cases hg : g.sig = s
    · simp only [hg, if_true, List.map_cons, List.contains_cons]
      simp [hg]
    · simp only [hg, if_false, List.map_cons, List.contains_cons]
      have : (s == g.sig) = false := by
        simp only [beq_eq_false_iff_ne]
        exact fun h => hg h.symm
      rw [this]
      simp only [Bool.false_or]
      by_cases hc : (rest.map (fun g => g.sig)).contains s
      · simp only [hc, if_true] at ih ⊢
        rw [ih]
      · simp only [hc, Bool.false_eq_true, if_false] at ih ⊢
        rw [ih]
        rfl

theorem buildGroups_sigs_aux (l : List (FailureRecord × String)) :
    ∀ gs : List Cluster,
      (l.foldl (fun a p => addToGroups a p.2 (exampleOf p.1)) gs).map (fun g => g.sig)
        = (l.map (fun p => p.2)).foldl
            (fun acc s => if acc.contains s then acc else acc ++ [s])
            (gs.map (fun g => g.sig)) := by
  induction l with
  | nil => intro gs; rfl
  | cons p rest ih =>
    intro gs
    show (rest.foldl _ (addToGroups gs p.2 (exampleOf p.1))).map _ = _
    rw [ih (addToGroups gs p.2 (exampleOf p.1)), addToGroups_map_sig]
    rfl

theorem buildGroups_sigs (l : List (FailureRecord × String)) :
    (buildGroups l).map (fun g => g.sig) = firstSeen (l.map (fun p => p.2)) :=
  buildGroups_sigs_aux l []

theorem firstSeen_nodup_aux (l : List String) :
    ∀ acc : List String, acc.Nodup →
      (l.foldl (fun acc s => if acc.contains s then acc else acc ++ [s]) acc).Nodup := by
  induction l with
  | nil => intro acc h; exact h
  | cons s rest ih =>
    intro acc h
    show (rest.foldl _ (if acc.contains s then acc else acc ++ [s])).Nodup
    by_cases hc : acc.contains s
    · simp only [hc, if_true]
      exact ih acc h
    · simp only [hc, Bool.false_eq_true, if_false]
      refine ih (acc ++ [s]) ?_
      have hs : s ∉ acc := by simpa using hc
      simp [List.nodup_append, h, hs]

theorem firstSeen_nodup (l : List String) : (firstSeen l).Nodup :=
  firstSeen_nodup_aux l [] List.nodup_nil

theorem groupFind_addToGroups (gs : List Cluster) (s t : String) (ex : ClusterEx) :
    groupFind (addToGroups gs s ex) t
      = if t = s then
          match groupFind gs s with
          | some g => some ⟨g.sig, g.count + 1, g.examples ++ [ex]⟩
          | none => some ⟨s, 1, [ex]⟩
        else groupFind gs t := by
  induction gs with
  | nil =>
    by_cases hts : t = s
    · subst hts
      simp [addToGroups, groupFind, List.find?]
    · have hst : (s == t) = false := by
        simp only [beq_eq_false_iff_ne]
        exact fun h => hts h.symm
      simp [addToGroups, groupFind, List.find?, hst, hts]
  | cons g rest ih =>
    unfold addToGroups
    by_cases hg : g.sig = s
    · rw [if_pos hg]
      by_cases hts : t = s
      · have h1 : ((fun x : Cluster => x.sig == t)
            ⟨g.sig, g.count + 1, g.examples ++ [ex]⟩) = true := by
          show (g.sig == t) = true
          rw [hg, hts]
          exact beq_self_eq_true s
        have h2 : ((fun x : Cluster => x.sig == s) g) = true := by
          show (g.sig == s) = true
          rw [hg]
          exact beq_self_eq_true s
        unfold groupFind
        rw [@List.find?_cons_of_pos Cluster (fun x => x.sig == t)
            ⟨g.sig, g.count + 1, g.examples ++ [ex]⟩ rest h1,
          @List.find?_cons_of_pos Cluster (fun x => x.sig == s) g rest h2]
        simp [hts]
      · have hgtf : (g.sig == t) = false := by
          simp only [beq_eq_false_iff_ne]
          rw [hg]
          exact fun h => hts h.symm
        have h1 : ¬ ((fun x : Cluster => x.sig == t)
            ⟨g.sig, g.count + 1, g.examples ++ [ex]⟩) = true := by
          show ¬ (g.sig == t) = true
          rw [hgtf]
          exact Bool.false_ne_true
        have h1b : ¬ ((fun x : Cluster => x.sig == t) g) = true := by
          show ¬ (g.sig == t) = true
          rw [hgtf]
          exact Bool.false_ne_true
        unfold groupFind
        rw [@List.find?_cons_of_neg Cluster (fun x => x.sig == t)
            ⟨g.sig, g.count + 1, g.examples ++ [ex]⟩ rest h1,
          @List.find?_cons_of_neg Cluster (fun x => x.sig == t) g rest h1b]
        simp [hts]
    · rw [if_neg hg]
      have hgs : ¬ ((fun x : Cluster => x.sig == s) g) = true := by
        show ¬ (g.sig == s) = true
        simp [hg]
      have hR : groupFind (g :: rest) s = groupFind rest s := by
        unfold groupFind
        rw [@List.find?_cons_of_neg Cluster (fun x => x.sig == s) g rest hgs]
      by_cases hgt : g.sig = t
      · have hts : ¬ t = s := fun h => hg (hgt.trans h)
        have h1 : ((fun x : Cluster => x.sig == t) g) = true := by
          show (g.sig == t) = true
          simp [hgt]
        unfold groupFind
        rw [@List.find?_cons_of_pos Cluster (fun x => x.sig == t) g
            (addToGroups rest s ex) h1,
          @List.find?_cons_of_pos Cluster (fun x => x.sig == t) g rest h1]
        simp [hts]
      · have h1 : ¬ ((fun x : Cluster => x.sig == t) g) = true := by
          show ¬ (g.sig == t) = true
          simp [hgt]
        have hT : groupFind (g :: rest) t = groupFind rest t := by
          unfold groupFind
          rw [@List.find?_cons_of_neg Cluster (fun x => x.sig == t) g rest h1]
        have hL : groupFind (g :: addToGroups rest s ex) t
            = groupFind (addToGroups rest s ex) t := by
          unfold groupFind
          rw [@List.find?_cons_of_neg Cluster (fun x => x.sig == t) g
            (addToGroups rest s ex) h1]
        rw [hL, ih, hR, hT]

theorem groupCount_addToGroups (gs : List Cluster) (s t : String) (ex : ClusterEx) :
    groupCount (addToGroups gs s ex) t
      = if t = s then groupCount gs t + 1 else groupCount gs t := by
  unfold groupCount
  rw [groupFind_addToGroups]
  by_cases hts : t = s
  · subst hts
    cases hf : groupFind gs t with
    | none => simp [hf]
    | some g => simp [hf]
  · simp [hts]

theorem groupExs_addToGroups (gs : List Cluster) (s t : String) (ex : ClusterEx) :
    groupExs (addToGroups gs s ex) t
      = if t = s then groupExs gs t ++ [ex] else groupExs gs t := by
  unfold groupExs
  rw [groupFind_addToGroups]
  by_cases hts : t = s
  · subst hts
    cases hf : groupFind gs t with
    | none => simp [hf]
    | some g => simp [hf]
  · simp [hts]

theorem buildGroups_count_aux (l : List (FailureRecord × String)) :
    ∀ (gs : List Cluster) (t : String),
      groupCount (l.foldl (fun a p => addToGroups a p.2 (exampleOf p.1)) gs) t
        = groupCount gs t + l.countP (fun p => p.2 == t) := by
  induction l with
  | nil => intro gs t; simp
  | cons p rest ih =>
    intro gs t
    show groupCount (rest.foldl _ (addToGroups gs p.2 (exampleOf p.1))) t = _
    rw [ih, groupCount_addToGroups, List.countP_cons]
    by_cases hts : t = p.2
    · have hb : (p.2 == t) = true := by rw [hts]; exact beq_self_eq_true p.2
      rw [if_pos hts, hb]
      simp only [eq_self_iff_true, if_true]
      omega
    · have hb : (p.2 == t) = false := by
        simp only [beq_eq_false_iff_ne]
        exact fun h => hts h.symm
      rw [if_neg hts, hb]
      simp only [Bool.false_eq_true, if_false]
      omega

theorem buildGroups_exs_aux (l : List (FailureRecord × String)) :
    ∀ (gs : List Cluster) (t : String),
      groupExs (l.foldl (fun a p => addToGroups a p.2 (exampleOf p.1)) gs) t
        = groupExs gs t ++ (l.filter (fun p => p.2 == t)).map (fun p => exampleOf p.1) := by
  induction l with
  | nil => intro gs t; simp
  | cons p rest ih =>
    intro gs t
    show groupExs (rest.foldl _ (addToGroups gs p.2 (exampleOf p.1))) t = _
    rw [ih, groupExs_addToGroups, List.filter_cons]
    by_cases hts : t = p.2
    · have hb : (p.2 == t) = true := by rw [hts]; exact beq_self_eq_true p.2
      rw [if_pos hts, hb]
      simp only [eq_self_iff_true, if_true, List.map_cons, List.append_assoc]
      rfl
    · have hb : (p.2 == t) = false := by
        simp only [beq_eq_false_iff_ne]
        exact fun h => hts h.symm
      rw [if_neg hts, hb]
      simp only [Bool.false_eq_true, if_false]

theorem groupCount_nil (t : String) : groupCount [] t = 0 := rfl

theorem groupExs_nil (t : String) : groupExs [] t = [] := rfl

theorem buildGroups_count (l : List (FailureRecord × String)) (t : String) :
    groupCount (buildGroups l) t = l.countP (fun p => p.2 == t) := by
  have := buildGroups_count_aux l [] t
  simpa [buildGroups, groupCount_nil] using this

theorem buildGroups_exs (l : List (FailureRecord × String)) (t : String) :
    groupExs (buildGroups l) t
      = (l.filter (fun p => p.2 == t)).map (fun p => exampleOf p.1) := by
  have := buildGroups_exs_aux l [] t
  simpa [buildGroups, groupExs_nil] using this

theorem groupFind_of_mem (gs : List Cluster) (g : Cluster)
    (hmem : g ∈ gs) (hnd : (gs.map (fun x => x.sig)).Nodup) :
    groupFind gs g.sig = some g := by
  induction gs with
  | nil => cases hmem
  | cons h rest ih =>
    rcases List.mem_cons.mp hmem with rfl | hmem2
    · have h1 : ((fun x : Cluster => x.sig == g.sig) g) = true := beq_self_eq_true g.sig
      unfold groupFind
      rw [@List.find?_cons_of_pos Cluster (fun x => x.sig == g.sig) g rest h1]
    · rcases List.nodup_cons.mp hnd with ⟨hnotin, hndrest⟩
      have hne : ¬ h.sig = g.sig := by
        intro he
        have hmm : g.sig ∈ rest.map (fun x => x.sig) :=
          List.mem_map_of_mem (fun x => x.sig) hmem2
        rw [← he] at hmm
        exact hnotin hmm
      have h1 : ¬ ((fun x : Cluster => x.sig == g.sig) h) = true := by
        show ¬ (h.sig == g.sig) = true
        simp [hne]
      unfold groupFind
      rw [@List.find?_cons_of_neg Cluster (fun x => x.sig == g.sig) h rest h1]
      exact ih hmem2 hndrest

/-! ### Claim C9 -/

/-- C9: for every failure list whose signatures compute (`clusterSigs`)
and every example limit, `_cluster_failures` returns the insertion-order
groups (`buildGroups`) sorted by count descending (`Pairwise`), with
ties broken stably by first appearance — the filter equation says each
count level keeps its pre-sort relative order, and the groups' order is
`firstSeen` of the signatures; each group's count and examples are the
number and, in arrival order, the `{file, line, title}` projections of
exactly its records; and the displayed examples are the prefix
`examples.take limit`, of length at most the limit. -/
theorem C9_cluster_ranking (fs : List FailureRecord) (sigs : List String) (k : Nat)
    (hsig : clusterSigs fs = .ok sigs) :
    _cluster_failures fs = .ok (sortByCountDesc (buildGroups (fs.zip sigs)))
    ∧ (sortByCountDesc (buildGroups (fs.zip sigs))).Pairwise (fun a b => b.count ≤ a.count)
    ∧ (∀ n : Nat, (sortByCountDesc (buildGroups (fs.zip sigs))).filter (fun c => c.count == n)
         = (buildGroups (fs.zip sigs)).filter (fun c => c.count == n))
    ∧ (buildGroups (fs.zip sigs)).map (fun g => g.sig) = firstSeen sigs
    ∧ (∀ g ∈ buildGroups (fs.zip sigs),
         g.count = ((fs.zip sigs).filter (fun p => p.2 == g.sig)).length
         ∧ g.examples = ((fs.zip sigs).filter (fun p => p.2 == g.sig)).map
             (fun p => exampleOf p.1))
    ∧ (∀ c ∈ sortByCountDesc (buildGroups (fs.zip sigs)),
         displayedExamples c k = c.examples.take k
         ∧ (displayedExamples c k).length ≤ k) := by
  refine ⟨?_, sortByCountDesc_pairwise _, fun n => sortByCountDesc_filter n _, ?_, ?_, ?_⟩
  · unfold _cluster_failures
    rw [hsig]
    rfl
  · rw [buildGroups_sigs]
    congr 1
    have hlen : sigs.length = fs.length := mapM_ok_length _ fs sigs hsig
    exact List.map_snd_zip fs sigs (le_of_eq hlen)
  · intro g hg
    have hnd : ((buildGroups (fs.zip sigs)).map (fun x => x.sig)).Nodup := by
      rw [buildGroups_sigs]
      exact firstSeen_nodup _
    have hfind := groupFind_of_mem _ g hg hnd
    constructor
    · have hc := buildGroups_count (fs.zip sigs) g.sig
      unfold groupCount at hc
      rw [hfind] at hc
      simp only [Option.map_some', Option.getD_some] at hc
      rw [hc]
      exact List.countP_eq_length_filter _ _
    · have he := buildGroups_exs (fs.zip sigs) g.sig
      unfold groupExs at he
      rw [hfind] at he
      simpa using he
  · intro c hc
    refine ⟨rfl, ?_⟩
    show (c.examples.take k).length ≤ k
    exact List.length_take_le k c.examples

/-- C9 witness: three records with signatures boom/other/boom cluster
into a sorted, stable ranking. -/
theorem C9_witness :
    _cluster_failures [c9rec1, c9rec2, c9rec3]
      = .ok (sortByCountDesc (buildGroups
          ([c9rec1, c9rec2, c9rec3].zip ["boom", "other", "boom"])))
    ∧ (sortByCountDesc (buildGroups
          ([c9rec1, c9rec2, c9rec3].zip ["boom", "other", "boom"]))).Pairwise
        (fun a b => b.count ≤ a.count) :=
  ⟨(C9_cluster_ranking [c9rec1, c9rec2, c9rec3] ["boom", "other", "boom"] 2 rfl).1,
   (C9_cluster_ranking [c9rec1, c9rec2, c9rec3] ["boom", "other", "boom"] 2 rfl).2.1⟩
